import Mathlib

/-!
Shallow embedding of the `okx-dex-sdk` repository's core logic
(`client.py`, `chains/evm.py`, `chains/solana.py`, `models.py`) and proofs
about it.

Conventions used throughout:
* Python `int` values are modelled as `ℕ` (all quantities involved — raw
  amounts, fees, nonces, allowances — are non-negative in the source).
* Python `decimal.Decimal` values built from non-negative decimal strings
  are modelled as a coefficient/denominator-exponent pair `(m, e)` with
  value `m / 10^e`; `decimal` context arithmetic (default context:
  28 significant digits, `ROUND_HALF_EVEN`) is modelled explicitly.
* Python `float` arithmetic (used only in `int(base_fee_per_gas * 1.2)`)
  is modelled as exact rational arithmetic followed by IEEE-754
  round-to-nearest-even at 53 significant bits.  Conversion overflow
  (operands ≥ 2^1024, which would raise `OverflowError`) is not modelled.
* Fallible code returns `Except PyError _`; RPC/API side effects are
  recorded in explicit event traces.
-/

/-- Python exception classes that the modelled code can raise. -/
inductive PyError where
  | zeroDivision
  | typeError
  | valueError (msg : String)
  | sdkException (msg : String)
  deriving DecidableEq, Repr

/-! ### Half-even rounding, shared by the `decimal`-context model and the
IEEE-754 double model.

`rndHalfEven d n` rounds `n` to the nearest multiple of `d`, ties going to
the multiple with an even quotient (for `d = 0` we return `n`; that case
never arises below). -/

def rndHalfEven (d n : ℕ) : ℕ :=
  if d = 0 then n
  else
    let q := n / d
    let r := n % d
    if 2 * r < d then q * d
    else if d < 2 * r then (q + 1) * d
    else if q % 2 = 0 then q * d else (q + 1) * d

/-! ### Python `decimal` default-context arithmetic

`digitLen c` is the number of decimal digits of a coefficient `c`
(Python's `Decimal` measures precision on the coefficient; a coefficient
with trailing zeros only ever loses zeros when rounded to 28 significant
digits, so working with the scaled integer value is value-faithful). -/

def digitLen (n : ℕ) : ℕ := Nat.log 10 n + 1

/-- Round an exact (scaled-integer) product back into the default decimal
context: results with more than `prec = 28` significant digits are rounded
half-even to 28 significant digits.  The returned natural is the value of
the context-rounded `Decimal`, scaled by the same power of ten as the
input. -/
def ctxRound28 (c : ℕ) : ℕ :=
  if digitLen c ≤ 28 then c else rndHalfEven (10 ^ (digitLen c - 28)) c

namespace OkxDexClient

/-- `client.py`, `get_quote` / `execute_swap`:
`raw_amount = int(Decimal(amount) * 10**from_token_decimals)` for an
amount string with coefficient `m` and `e` fractional digits
(value `m / 10^e`).  `Decimal.__mul__` context-rounds the exact product,
and `int(...)` truncates toward zero (= floor for non-negative values). -/
def raw_amount (m e d : ℕ) : ℕ :=
  ctxRound28 (m * 10 ^ d) / 10 ^ e

/-- `client.py`, `execute_swap_via_balance_percent`:
`raw_amount = int(Decimal(balance) * 10**decimals * Decimal(percent))`
for a balance string of value `mb / 10^eb` and a percent string of value
`mp / 10^ep`.  The two multiplications associate to the left, each one
context-rounded. -/
def balance_percent_raw_amount (mb eb d mp ep : ℕ) : ℕ :=
  ctxRound28 (ctxRound28 (mb * 10 ^ d) * mp) / 10 ^ (eb + ep)

end OkxDexClient


/-! ### IEEE-754 binary64 model

`chains/evm.py` computes `int(base_fee_per_gas * 1.2)`.  In CPython the
`int` operand is first converted to a double (round to nearest, ties to
even, at 53 significant bits — exact below `2^53`) and the product with
the double nearest to 1.2 is again rounded to 53 significant bits.
`roundInt53 n` rounds the integer `n` to 53 significant bits; because
significand rounding is scale-invariant this suffices to model both
steps on the scaled integers involved. -/

def roundInt53 (n : ℕ) : ℕ :=
  if n < 2 ^ 53 then n else rndHalfEven (2 ^ (Nat.log2 n - 52)) n

/-- The coefficient of the IEEE-754 double nearest to 1.2:
`double(1.2) = f12Mantissa / 2^52 = 1.1999999999999999555910790149937…`. -/
def f12Mantissa : ℕ := 5404319552844595

namespace EvmChain

/-- `chains/evm.py`, `_check_and_approve_token` / `approve`:
`max_fee_per_gas = int(base_fee_per_gas * 1.2) + max_priority_fee_per_gas`.
The float product `base_fee_per_gas * 1.2` is
`roundInt53 (roundInt53 base_fee * f12Mantissa) / 2^52` (a dyadic
rational); `int(...)` truncates it toward zero, which for non-negative
values is the `ℕ` division by `2^52`. -/
def approval_max_fee_per_gas (base_fee_per_gas max_priority_fee_per_gas : ℕ) : ℕ :=
  roundInt53 (roundInt53 base_fee_per_gas * f12Mantissa) / 2 ^ 52 +
    max_priority_fee_per_gas

/-- `chains/evm.py`, `execute_swap`:
`max_fee_per_gas = int(base_fee_per_gas * 5) + max_priority_fee_per_gas`.
Here `base_fee_per_gas * 5` is exact Python `int` arithmetic. -/
def swap_max_fee_per_gas (base_fee_per_gas max_priority_fee_per_gas : ℕ) : ℕ :=
  base_fee_per_gas * 5 + max_priority_fee_per_gas

end EvmChain


/-! ### EVM transaction pipeline (`chains/evm.py`)

The pipeline's externally observable RPC/API effects are recorded as an
event trace; the environment fixes the responses the chain and the
aggregator give during one run. -/

/-- One externally observable call made by `EvmChain`, in program order. -/
inductive EvmEvent where
  /-- `api.swap(...)` (aggregator HTTP call). -/
  | apiSwapCall
  /-- `api.approve_transaction(...)` (aggregator HTTP call). -/
  | apiApproveCall
  /-- `token_contract.functions.allowance(owner, spender).call()`. -/
  | allowanceCall
  /-- `w3.eth.get_transaction_count(...)` (nonce fill). -/
  | getTransactionCount
  /-- `w3.eth.max_priority_fee`. -/
  | getMaxPriorityFee
  /-- `w3.eth.get_block("latest")` (base fee read). -/
  | getLatestBlock
  /-- `w3.eth.send_raw_transaction` of the locally built
  `approve(spender, amount)` transaction in `_check_and_approve_token`. -/
  | approveSendRaw (amount : ℕ)
  /-- `w3.eth.send_raw_transaction` of the aggregator-supplied approval
  payload in `approve`. -/
  | aggApproveSendRaw
  /-- `w3.eth.wait_for_transaction_receipt` for an approval transaction. -/
  | approveWaitReceipt
  /-- `w3.eth.estimate_gas(tx_params)` in `simulate_transaction`. -/
  | estimateGas
  /-- `w3.eth.call(tx_params)` in `simulate_transaction`. -/
  | ethCall
  /-- `w3.eth.send_raw_transaction` of the swap transaction. -/
  | swapSendRaw
  /-- `w3.eth.wait_for_transaction_receipt` for the swap transaction. -/
  | swapWaitReceipt
  deriving DecidableEq, Repr

/-- Fixed responses of the chain RPC surface during one pipeline run. -/
structure EvmEnv where
  /-- Result of the allowance query for (owner, spender). -/
  allowance : ℕ
  /-- Outcome of `w3.eth.estimate_gas` (error = simulated revert). -/
  estimateGasResult : Except String ℕ
  /-- Outcome of `w3.eth.call` (error = simulated revert). -/
  ethCallResult : Except String String
  /-- `status` field of the swap transaction's receipt. -/
  swapReceiptStatus : ℕ
  /-- `status` field of an approval transaction's receipt. -/
  approveReceiptStatus : ℕ
  deriving Repr

namespace EvmChain

/-- `chains/evm.py`, `_check_and_approve_token`: query the allowance; if
it is below `required_amount`, build (nonce + fee reads), sign, send and
wait for an `approve(spender, required_amount)` transaction.  The receipt
is awaited but its status is never inspected, and the function has no
failure path of its own. -/
def check_and_approve_token (env : EvmEnv) (required_amount : ℕ) :
    List EvmEvent × Except PyError Unit :=
  if env.allowance < required_amount then
    ([.allowanceCall, .getTransactionCount, .getMaxPriorityFee, .getLatestBlock,
      .approveSendRaw required_amount, .approveWaitReceipt], .ok ())
  else
    ([.allowanceCall], .ok ())

/-- `chains/evm.py`, `simulate_transaction`: estimate gas, and — only when
the transaction carries payload `data` — perform a read-only `eth_call`
with the same parameters; the first exception makes `success` false and
captures `str(e)` as the error. -/
def simulate_transaction (env : EvmEnv) (hasData : Bool) :
    List EvmEvent × Except String Unit :=
  match env.estimateGasResult with
  | .error e => ([.estimateGas], .error e)
  | .ok _ =>
    if hasData then
      match env.ethCallResult with
      | .error e => ([.estimateGas, .ethCall], .error e)
      | .ok _ => ([.estimateGas, .ethCall], .ok ())
    else ([.estimateGas], .ok ())

/-- `chains/evm.py`, `EvmChain.execute_swap`: private-key check, aggregator
swap call, response checks, approval step for non-native from-tokens,
EIP-1559 fill, simulation gate, sign/send, receipt wait and status check.
`amount` is the required raw amount (`int(amount)` in the source),
`hasData` whether `tx_params["data"]` is non-empty. -/
def execute_swap (env : EvmEnv) (hasPrivateKey dataPresent txPresent : Bool)
    (fromTokenIsNative : Bool) (amount : ℕ) (hasData : Bool) :
    List EvmEvent × Except PyError Unit :=
  if !hasPrivateKey then
    ([], .error (.valueError "A private key is required to execute a swap."))
  else if !dataPresent then
    ([.apiSwapCall], .error (.valueError "Failed to get swap data"))
  else if !txPresent then
    ([.apiSwapCall], .error (.valueError "Failed to get tx data"))
  else
    let approvalTrace :=
      if fromTokenIsNative then [] else (check_and_approve_token env amount).1
    let fillTrace := [EvmEvent.getTransactionCount, .getMaxPriorityFee, .getLatestBlock]
    let (simTrace, simRes) := simulate_transaction env hasData
    match simRes with
    | .error e =>
      ([.apiSwapCall] ++ approvalTrace ++ fillTrace ++ simTrace,
        .error (.sdkException ("交易模拟失败: " ++ e)))
    | .ok _ =>
      let t := [EvmEvent.apiSwapCall] ++ approvalTrace ++ fillTrace ++ simTrace ++
        [.swapSendRaw, .swapWaitReceipt]
      if env.swapReceiptStatus ≠ 1 then (t, .error (.sdkException "Transaction failed"))
      else (t, .ok ())

/-- `chains/evm.py`, `EvmChain.approve`: private-key check, aggregator
approval-data call, fill, sign, send, wait.  The receipt is awaited but
its status is never inspected; the transaction hash is returned. -/
def approve (_env : EvmEnv) (hasPrivateKey dataPresent : Bool) :
    List EvmEvent × Except PyError Unit :=
  if !hasPrivateKey then
    ([], .error (.valueError "A private key is required to approve a token."))
  else if !dataPresent then
    ([.apiApproveCall], .error (.valueError "Failed to get approval data"))
  else
    ([.apiApproveCall, .getTransactionCount, .getMaxPriorityFee, .getLatestBlock,
      .aggApproveSendRaw, .approveWaitReceipt], .ok ())

end EvmChain

/-! ### Ledger (Solana) pipeline (`chains/solana.py`) -/

/-- `solders.message.MessageV0`, with its five constructor fields kept
abstract: the embedding only needs that the fields are re-assembled, not
their wire encodings. -/
structure MessageV0 (H K B I L : Type) where
  header : H
  account_keys : K
  recent_blockhash : B
  instructions : I
  address_table_lookups : L

namespace SolanaChain

/-- `chains/solana.py`, `execute_swap`, steps 2–6: after decoding the
aggregator payload into `original_tx`, a fresh blockhash is fetched and a
new `MessageV0` is built from the original message's fields with only
`recent_blockhash` replaced; `VersionedTransaction(new_message,
[fee_payer])` then signs exactly this message. -/
def execute_swap_signed_message {H K B I L : Type}
    (original : MessageV0 H K B I L) (fresh_blockhash : B) : MessageV0 H K B I L :=
  { header := original.header
    account_keys := original.account_keys
    recent_blockhash := fresh_blockhash
    instructions := original.instructions
    address_table_lookups := original.address_table_lookups }

/-- `chains/solana.py`, `execute_swap_via_okx`: the aggregator-relay path
rebuilds the message the same way before signing and handing the signed
bytes to `api.broadcast_transaction`. -/
def execute_swap_via_okx_signed_message {H K B I L : Type}
    (original : MessageV0 H K B I L) (fresh_blockhash : B) : MessageV0 H K B I L :=
  { header := original.header
    account_keys := original.account_keys
    recent_blockhash := fresh_blockhash
    instructions := original.instructions
    address_table_lookups := original.address_table_lookups }

end SolanaChain

/-! ### Client facade (`client.py`) -/

namespace OkxDexClient

/-- `client.py`, `get_token_decimals_from_address`: the
`token_decimals_cache` dict is consulted with the token contract address
alone; on a hit the cached value is returned with no handler call, on a
miss `handler.get_token_decimals` (modelled by `oracle chain_id addr`) is
called once and the result stored under the address alone.  Returns
`(decimals, cache', number of external lookups performed)`. -/
def get_token_decimals_from_address (oracle : String → String → ℕ)
    (cache : List (String × ℕ)) (chain_id token_contract_address : String) :
    ℕ × List (String × ℕ) × ℕ :=
  match cache.lookup token_contract_address with
  | some v => (v, cache, 0)
  | none =>
    let decimals := oracle chain_id token_contract_address
    (decimals, (token_contract_address, decimals) :: cache, 1)

/-- Python keyword-argument binding: a call `f(**kwargs)` raises
`TypeError` when some keyword is not among `f`'s parameter names (none of
the functions involved take `**kwargs`). -/
def acceptsKeywords (params kwargs : List String) : Bool :=
  kwargs.all params.contains

/-- Keyword arguments `client.py`'s `execute_swap` passes to
`handler.execute_swap`. -/
def execute_swap_call_keywords : List String :=
  ["chain_id", "from_token_address", "to_token_address", "amount", "slippage",
    "user_wallet_address", "private_key"]

/-- The delegated call `handler.execute_swap(chain_id=…, …,
private_key=private_key)`: it binds only when every keyword is a parameter
of the handler's `execute_swap`. -/
def execute_swap_delegation (handler_params : List String) : Except PyError Unit :=
  if acceptsKeywords handler_params execute_swap_call_keywords then .ok ()
  else .error .typeError

end OkxDexClient

namespace EvmChain

/-- Parameter names of `EvmChain.execute_swap` (`chains/evm.py`, line 127:
no `private_key` parameter). -/
def execute_swap_params : List String :=
  ["chain_id", "from_token_address", "to_token_address", "amount", "slippage",
    "user_wallet_address"]

end EvmChain

namespace SolanaChain

/-- Parameter names of `SolanaChain.execute_swap` (`chains/solana.py`). -/
def execute_swap_params : List String :=
  ["chain_id", "from_token_address", "to_token_address", "amount", "slippage",
    "user_wallet_address", "private_key", "poll_for_confirmation",
    "poll_sleep_seconds"]

end SolanaChain

/-! ### Route models (`models.py`)

String-typed numeric fields (`amount_out`, `from_token_amount`, …) hold
non-negative decimal literals in the source; they are modelled by their
numeric values (`ℚ` for `Decimal(...)` results, `ℕ` for the integer raw
amounts).  `decimal` division context-rounds its quotient to 28
significant digits, which never changes whether an operand or a result is
zero, so exact `ℚ` division is value-faithful for the zero-guard
behaviour studied here. -/

/-- `models.py`, `QuoteCompare` (numeric field by value, rest verbatim). -/
structure QuoteCompare where
  amount_out : ℚ
  dex_logo : String
  dex_name : String
  trade_fee : String
  deriving DecidableEq, Repr

namespace QuoteCompare

/-- `QuoteCompare.get_output_amount`: `Decimal(self.amount_out)`. -/
def get_output_amount (q : QuoteCompare) : ℚ := q.amount_out

/-- `QuoteCompare.get_price`: guards `input_amount == 0`, then divides by
`output_amount` — `Decimal` division by zero raises
`decimal.DivisionByZero`, a subclass of `ZeroDivisionError`. -/
def get_price (q : QuoteCompare) (input_amount : ℚ) : Except PyError ℚ :=
  let output_amount := q.get_output_amount
  if input_amount = 0 then .ok 0
  else if output_amount = 0 then .error .zeroDivision
  else .ok (input_amount / output_amount)

end QuoteCompare

/-- `models.py`, `RouterResult` (numeric fields by value: the raw amount
strings as `ℕ`, the token `decimal` fields as `ℕ`). -/
structure RouterResult where
  chain_id : String
  estimate_gas_fee : String
  from_token_decimal : ℕ
  from_token_amount : ℕ
  to_token_decimal : ℕ
  to_token_amount : ℕ
  quote_compare_list : List QuoteCompare
  trade_fee : String
  deriving DecidableEq, Repr

namespace RouterResult

/-- `RouterResult.from_amount_decimal`:
`Decimal(from_token_amount) / Decimal(10 ** int(from_token.decimal))`. -/
def from_amount_decimal (r : RouterResult) : ℚ :=
  (r.from_token_amount : ℚ) / 10 ^ r.from_token_decimal

/-- `RouterResult.to_amount_decimal`. -/
def to_amount_decimal (r : RouterResult) : ℚ :=
  (r.to_token_amount : ℚ) / 10 ^ r.to_token_decimal

/-- `RouterResult.execution_price`: the zero guard tests
`to_amount_decimal`, then divides by `from_amount_decimal`. -/
def execution_price (r : RouterResult) : Except PyError ℚ :=
  if r.to_amount_decimal = 0 then .ok 0
  else if r.from_amount_decimal = 0 then .error .zeroDivision
  else .ok (r.to_amount_decimal / r.from_amount_decimal)

/-- Python's `min(iterable, key=...)` evaluates the key left to right and
keeps the earliest strict minimum; the first key exception propagates. -/
def best_venue_aux (input_amount : ℚ) (best : QuoteCompare × ℚ) :
    List QuoteCompare → Except PyError QuoteCompare
  | [] => .ok best.1
  | q :: rest =>
    match q.get_price input_amount with
    | .error e => .error e
    | .ok p =>
      if p < best.2 then best_venue_aux input_amount (q, p) rest
      else best_venue_aux input_amount best rest

/-- `RouterResult.best_venue`:
`min(quote_compare_list, key=lambda x: x.get_price(from_amount_decimal))`;
`min` over an empty sequence raises `ValueError`. -/
def best_venue (r : RouterResult) : Except PyError QuoteCompare :=
  match r.quote_compare_list with
  | [] => .error (.valueError "min() arg is an empty sequence")
  | q :: rest =>
    match q.get_price r.from_amount_decimal with
    | .error e => .error e
    | .ok p => best_venue_aux r.from_amount_decimal (q, p) rest

end RouterResult

/-! ## Theorems -/

/-! ### Helper lemmas for the fee-cap invariant (C6) -/

/-- Half-even rounding moves a value down by less than one rounding unit. -/
theorem rndHalfEven_ge (d n : ℕ) : n - d ≤ rndHalfEven d n := by
  rw [rndHalfEven]
  by_cases hd : d = 0
  · simp [hd]
  · have h : d * (n / d) + n % d = n := Nat.div_add_mod n d
    have hr : n % d < d := Nat.mod_lt n (Nat.pos_of_ne_zero hd)
    have hc : d * (n / d) = n / d * d := mul_comm _ _
    have hs : (n / d + 1) * d = n / d * d + d := by ring
    simp only [if_neg hd]
    split_ifs <;> omega

/-- Rounding to 53 significant bits loses at most a `2⁻⁵²` relative part. -/
theorem roundInt53_ge (n : ℕ) : n - n / 2 ^ 52 ≤ roundInt53 n := by
  rw [roundInt53]
  by_cases hn : n < 2 ^ 53
  · rw [if_pos hn]; exact Nat.sub_le _ _
  · rw [if_neg hn]
    have h53 : 2 ^ 53 ≤ n := le_of_not_lt hn
    have hn0 : n ≠ 0 := by
      intro h0; rw [h0] at h53; norm_num at h53
    have hL : 53 ≤ Nat.log2 n := by
      rw [Nat.log2_eq_log_two]
      exact (Nat.pow_le_iff_le_log one_lt_two hn0).1 h53
    have hpow : 2 ^ Nat.log2 n ≤ n := by
      rw [Nat.log2_eq_log_two]; exact Nat.pow_log_le_self 2 hn0
    have hsplit : 2 ^ (Nat.log2 n - 52) * 2 ^ 52 = 2 ^ Nat.log2 n := by
      rw [← pow_add]; congr 1; omega
    have hk : 2 ^ (Nat.log2 n - 52) ≤ n / 2 ^ 52 :=
      (Nat.le_div_iff_mul_le (by positivity)).2 (hsplit ▸ hpow)
    calc n - n / 2 ^ 52 ≤ n - 2 ^ (Nat.log2 n - 52) := Nat.sub_le_sub_left hk n
      _ ≤ rndHalfEven (2 ^ (Nat.log2 n - 52)) n := rndHalfEven_ge _ _

/-- The truncated double product `int(float(b) * double(1.2))` never drops
below `b` itself: `double(1.2) ≥ 1.2 · (1 − 2⁻⁵²)⁻¹·…` leaves enough slack
for the two 53-bit roundings. -/
theorem approval_fee_ge_base (b : ℕ) :
    b ≤ roundInt53 (roundInt53 b * f12Mantissa) / 2 ^ 52 := by
  have hpos : (0:ℕ) < 2 ^ 52 := by positivity
  rw [Nat.le_div_iff_mul_le hpos]
  have h1 : b - b / 2 ^ 52 ≤ roundInt53 b := roundInt53_ge b
  have h2 : roundInt53 b * f12Mantissa - roundInt53 b * f12Mantissa / 2 ^ 52 ≤
      roundInt53 (roundInt53 b * f12Mantissa) := roundInt53_ge _
  have hb' : b / 2 ^ 52 * 2 ^ 52 ≤ b := Nat.div_mul_le_self _ _
  have hP' : roundInt53 b * f12Mantissa / 2 ^ 52 * 2 ^ 52 ≤
      roundInt53 b * f12Mantissa := Nat.div_mul_le_self _ _
  set B := roundInt53 b with hB
  set P := B * f12Mantissa with hPdef
  set R := roundInt53 P with hR
  have e1 : b * (2 ^ 52 - 1) ≤ B * 2 ^ 52 := by
    have : (b - b / 2 ^ 52) * 2 ^ 52 ≤ B * 2 ^ 52 := Nat.mul_le_mul_right _ h1
    rw [Nat.sub_mul] at this
    omega
  have e2 : P * (2 ^ 52 - 1) ≤ R * 2 ^ 52 := by
    have : (P - P / 2 ^ 52) * 2 ^ 52 ≤ R * 2 ^ 52 := Nat.mul_le_mul_right _ h2
    rw [Nat.sub_mul] at this
    omega
  have key : 2 ^ 52 * (2 ^ 52 * 2 ^ 52) ≤ f12Mantissa * ((2 ^ 52 - 1) * (2 ^ 52 - 1)) := by
    norm_num [f12Mantissa]
  have chain : b * 2 ^ 52 * (2 ^ 52 * 2 ^ 52) ≤ R * (2 ^ 52 * 2 ^ 52) := by
    calc b * 2 ^ 52 * (2 ^ 52 * 2 ^ 52)
        = b * (2 ^ 52 * (2 ^ 52 * 2 ^ 52)) := by ring
      _ ≤ b * (f12Mantissa * ((2 ^ 52 - 1) * (2 ^ 52 - 1))) := Nat.mul_le_mul_left _ key
      _ = b * (2 ^ 52 - 1) * (f12Mantissa * (2 ^ 52 - 1)) := by ring
      _ ≤ B * 2 ^ 52 * (f12Mantissa * (2 ^ 52 - 1)) := Nat.mul_le_mul_right _ e1
      _ = P * (2 ^ 52 - 1) * 2 ^ 52 := by rw [hPdef]; ring
      _ ≤ R * 2 ^ 52 * 2 ^ 52 := Nat.mul_le_mul_right _ e2
      _ = R * (2 ^ 52 * 2 ^ 52) := by ring
  exact Nat.le_of_mul_le_mul_right chain (by positivity)

/-! ### C6 — EIP-1559 fee fill -/

/-- C6, counterexample: at `baseFeePerGas = 2^53 + 1` the approval-site
fee cap `int(base_fee_per_gas * 1.2) + priority` (IEEE-754 double
arithmetic: `float(2^53 + 1) = 2^53`, then an exact product) is
`10808639105689190`, one below `floor(baseFee × 1.2) = floor((2^53+1)·6/5)
= 10808639105689191` demanded by the claim, so
`maxFeePerGas = floor(baseFee × m) + maxPriorityFeePerGas` fails for the
approval multiplier `m = 1.2`. -/
theorem c6_counterexample :
    EvmChain.approval_max_fee_per_gas 9007199254740993 0 = 10808639105689190 ∧
    9007199254740993 * 6 / 5 + 0 = 10808639105689191 ∧
    EvmChain.approval_max_fee_per_gas 9007199254740993 0 ≠
      9007199254740993 * 6 / 5 + 0 := by
  have hlog1 : Nat.log2 9007199254740993 = 53 := by
    rw [Nat.log2_eq_log_two]
    exact Nat.log_eq_of_pow_le_of_lt_pow (by norm_num) (by norm_num)
  have h1 : roundInt53 9007199254740993 = 9007199254740992 := by
    rw [roundInt53, hlog1]; norm_num [rndHalfEven]
  have hlog2 : Nat.log2 48677783048764007216033552138240 = 105 := by
    rw [Nat.log2_eq_log_two]
    exact Nat.log_eq_of_pow_le_of_lt_pow (by norm_num) (by norm_num)
  have h2 : roundInt53 48677783048764007216033552138240 =
      48677783048764007216033552138240 := by
    rw [roundInt53, hlog2]; norm_num [rndHalfEven]
  have hval : EvmChain.approval_max_fee_per_gas 9007199254740993 0 =
      10808639105689190 := by
    rw [EvmChain.approval_max_fee_per_gas, h1,
      show (9007199254740992 * f12Mantissa = 48677783048764007216033552138240) from by
        norm_num [f12Mantissa],
      h2]
    norm_num
  refine ⟨hval, by norm_num, ?_⟩
  rw [hval]; norm_num

/-- C6, amended: the swap-site fee cap is exactly
`floor(baseFee × 5) + maxPriorityFeePerGas` (`int` arithmetic is exact),
while the approval-site cap is `int(baseFee * 1.2)` evaluated in IEEE-754
double arithmetic — which can fall below `floor(baseFee × 1.2)` (see the
counterexample) — plus the priority fee; the fee-cap invariant
`maxFeePerGas ≥ baseFee + maxPriorityFeePerGas` nevertheless holds at
both call sites for every non-negative integer base fee. -/
theorem c6_fee_fill (base_fee_per_gas max_priority_fee_per_gas : ℕ) :
    EvmChain.swap_max_fee_per_gas base_fee_per_gas max_priority_fee_per_gas =
      base_fee_per_gas * 5 + max_priority_fee_per_gas ∧
    base_fee_per_gas + max_priority_fee_per_gas ≤
      EvmChain.swap_max_fee_per_gas base_fee_per_gas max_priority_fee_per_gas ∧
    base_fee_per_gas + max_priority_fee_per_gas ≤
      EvmChain.approval_max_fee_per_gas base_fee_per_gas max_priority_fee_per_gas := by
  refine ⟨rfl, ?_, ?_⟩
  · rw [EvmChain.swap_max_fee_per_gas]; omega
  · rw [EvmChain.approval_max_fee_per_gas]
    exact Nat.add_le_add (approval_fee_ge_base base_fee_per_gas) le_rfl

/-! ### C4 — human-amount → raw-amount conversion -/

/-- C4, counterexample: for the amount string `"0.0000000000000000019"`
(value `19 / 10^19`) and 18 decimals, the code's
`int(Decimal(amount) * 10**18)` yields `1`, but
`round(a × 10^d) = round(1.9) = 2`: the conversion truncates instead of
rounding. -/
theorem c4_counterexample :
    (OkxDexClient.raw_amount 19 19 18 : ℤ) ≠
      round ((19 : ℚ) / 10 ^ 19 * 10 ^ 18) := by
  have hlog : Nat.log 10 19000000000000000000 = 19 :=
    Nat.log_eq_of_pow_le_of_lt_pow (by norm_num) (by norm_num)
  have hc : ctxRound28 19000000000000000000 = 19000000000000000000 := by
    rw [ctxRound28, digitLen, hlog]; norm_num
  have h1 : OkxDexClient.raw_amount 19 19 18 = 1 := by
    rw [OkxDexClient.raw_amount]
    norm_num [hc]
  have h2 : round ((19 : ℚ) / 10 ^ 19 * 10 ^ 18) = 2 := by
    norm_num [show ((19 : ℚ) / 10 ^ 19 * 10 ^ 18) = 19 / 10 by norm_num, round_eq]
  rw [h1, h2]
  decide

/-- C4, amended: `raw_amount` is the *truncation toward zero* of
`a × 10^d` (not its rounding), computed in 28-significant-digit decimal
context arithmetic: whenever the exact product coefficient `m·10^d` stays
within the 28-digit context, the raw amount is exactly
`⌊m·10^d / 10^e⌋`, and the conversion is exact for inputs with at most
`d` fractional digits (`e ≤ d`). -/
theorem c4_truncating_conversion (m e d : ℕ) (h : digitLen (m * 10 ^ d) ≤ 28) :
    OkxDexClient.raw_amount m e d = m * 10 ^ d / 10 ^ e ∧
    (e ≤ d → OkxDexClient.raw_amount m e d = m * 10 ^ (d - e)) := by
  have hc : ctxRound28 (m * 10 ^ d) = m * 10 ^ d := by rw [ctxRound28, if_pos h]
  refine ⟨by rw [OkxDexClient.raw_amount, hc], fun he => ?_⟩
  rw [OkxDexClient.raw_amount, hc,
    show m * 10 ^ d = m * 10 ^ (d - e) * 10 ^ e by
      rw [mul_assoc, ← pow_add]
      congr 2
      omega]
  exact Nat.mul_div_cancel _ (by positivity)

/-- C4, witness: the spec's own example `"0.6409"` with 18 decimals stays
inside the decimal context and converts exactly to
`640900000000000000`. -/
theorem c4_witness :
    digitLen (6409 * 10 ^ 18) ≤ 28 ∧ (4 : ℕ) ≤ 18 ∧
    OkxDexClient.raw_amount 6409 4 18 = 640900000000000000 := by
  have hlog : Nat.log 10 6409000000000000000000 = 21 :=
    Nat.log_eq_of_pow_le_of_lt_pow (by norm_num) (by norm_num)
  have h : digitLen (6409 * 10 ^ 18) ≤ 28 := by
    rw [show (6409 * 10 ^ 18 : ℕ) = 6409000000000000000000 by norm_num, digitLen, hlog]
    norm_num
  refine ⟨h, by norm_num, ?_⟩
  rw [(c4_truncating_conversion 6409 4 18 h).2 (by norm_num)]
  norm_num

/-! ### C8 — balance-percent sizing -/

/-- C8, counterexample: for a zero-decimals token with raw balance
`10^28 + 1` (human-readable balance string equal to the raw balance) and
`percent = "1"`, the default decimal context (28 significant digits)
rounds the intermediate product, so the code computes `10^28` instead of
`floor(balance_raw × percent) = 10^28 + 1`. -/
theorem c8_counterexample :
    OkxDexClient.balance_percent_raw_amount (10 ^ 28 + 1) 0 0 1 0 ≠
      (10 ^ 28 + 1) * 1 / 10 ^ 0 := by
  have hlog1 : Nat.log 10 10000000000000000000000000001 = 28 :=
    Nat.log_eq_of_pow_le_of_lt_pow (by norm_num) (by norm_num)
  have hc1 : ctxRound28 10000000000000000000000000001 =
      10000000000000000000000000000 := by
    rw [ctxRound28, digitLen, hlog1]
    norm_num [rndHalfEven]
  have hlog2 : Nat.log 10 10000000000000000000000000000 = 28 :=
    Nat.log_eq_of_pow_le_of_lt_pow (by norm_num) (by norm_num)
  have hc2 : ctxRound28 10000000000000000000000000000 =
      10000000000000000000000000000 := by
    rw [ctxRound28, digitLen, hlog2]
    norm_num [rndHalfEven]
  rw [OkxDexClient.balance_percent_raw_amount,
    show ((10 ^ 28 + 1) * 10 ^ 0 : ℕ) = 10000000000000000000000000001 by norm_num,
    hc1,
    show (10000000000000000000000000000 * 1 : ℕ) = 10000000000000000000000000000 by
      norm_num,
    hc2]
  norm_num

/-- C8, amended: whenever the intermediate decimal products stay within
the default context's 28 significant digits (and the balance string has
at most `d` fractional digits, as a chain-reported balance does), the raw
swap amount is exactly `floor(balance_raw × percent)` with
`balance_raw = mb·10^(d−eb)` and `percent = mp/10^ep`; outside the
context's precision the rounded intermediates can drift (see the
counterexample). -/
theorem c8_balance_percent_floor (mb eb d mp ep : ℕ)
    (h1 : digitLen (mb * 10 ^ d) ≤ 28) (h2 : digitLen (mb * 10 ^ d * mp) ≤ 28)
    (he : eb ≤ d) :
    OkxDexClient.balance_percent_raw_amount mb eb d mp ep =
      mb * 10 ^ (d - eb) * mp / 10 ^ ep := by
  have hc1 : ctxRound28 (mb * 10 ^ d) = mb * 10 ^ d := by rw [ctxRound28, if_pos h1]
  have hc2 : ctxRound28 (mb * 10 ^ d * mp) = mb * 10 ^ d * mp := by
    rw [ctxRound28, if_pos h2]
  rw [OkxDexClient.balance_percent_raw_amount, hc1, hc2,
    show mb * 10 ^ d * mp = mb * 10 ^ (d - eb) * mp * 10 ^ eb by
      rw [show (10:ℕ) ^ d = 10 ^ (d - eb) * 10 ^ eb by
        rw [← pow_add]; congr 1; omega]
      ring,
    pow_add, mul_comm (10 ^ eb : ℕ) (10 ^ ep)]
  exact Nat.mul_div_mul_right _ _ (by positivity)

/-- C8, witness: an 18-decimals token with raw balance `10^6` (human
balance string `"0.000000000001"`) and `percent = "1"` yields raw amount
exactly `1000000` — no rounding drift. -/
theorem c8_witness :
    digitLen (1 * 10 ^ 18) ≤ 28 ∧ digitLen (1 * 10 ^ 18 * 1) ≤ 28 ∧ (12 : ℕ) ≤ 18 ∧
    OkxDexClient.balance_percent_raw_amount 1 12 18 1 0 = 1000000 := by
  have hlog : Nat.log 10 1000000000000000000 = 18 :=
    Nat.log_eq_of_pow_le_of_lt_pow (by norm_num) (by norm_num)
  have h1 : digitLen (1 * 10 ^ 18) ≤ 28 := by
    rw [show (1 * 10 ^ 18 : ℕ) = 1000000000000000000 by norm_num, digitLen, hlog]
    norm_num
  have h2 : digitLen (1 * 10 ^ 18 * 1) ≤ 28 := by
    rw [show (1 * 10 ^ 18 * 1 : ℕ) = 1000000000000000000 by norm_num, digitLen, hlog]
    norm_num
  refine ⟨h1, h2, by norm_num, ?_⟩
  rw [c8_balance_percent_floor 1 12 18 1 0 h1 h2 (by norm_num)]
  norm_num

/-! ### Helper lemmas about the EVM pipeline traces (C2, C3) -/

/-- `simulate_transaction` only performs `estimate_gas` and `eth_call`. -/
theorem simulate_trace_events (env : EvmEnv) (hasData : Bool) (ev : EvmEvent)
    (h : ev ∈ (EvmChain.simulate_transaction env hasData).1) :
    ev = .estimateGas ∨ ev = .ethCall := by
  rw [EvmChain.simulate_transaction] at h
  rcases he : env.estimateGasResult with e | g <;> rw [he] at h
  · simp at h; exact Or.inl h
  · cases hasData
    · simp at h; exact Or.inl h
    · rcases hc : env.ethCallResult with e' | c <;> rw [hc] at h <;>
        simpa using h

/-- The `_check_and_approve_token` trace, closed form. -/
theorem check_and_approve_trace (env : EvmEnv) (required_amount : ℕ) :
    (EvmChain.check_and_approve_token env required_amount).1 =
      if env.allowance < required_amount then
        [.allowanceCall, .getTransactionCount, .getMaxPriorityFee, .getLatestBlock,
          .approveSendRaw required_amount, .approveWaitReceipt]
      else [.allowanceCall] := by
  rw [EvmChain.check_and_approve_token]
  split_ifs <;> rfl

/-- An approval broadcast appears in the `execute_swap` trace exactly when
it appears in the `_check_and_approve_token` sub-trace. -/
theorem execute_swap_approveSendRaw_mem (env : EvmEnv) (amount : ℕ)
    (hasData : Bool) (a : ℕ) :
    (EvmEvent.approveSendRaw a ∈
        (EvmChain.execute_swap env true true true false amount hasData).1) ↔
      EvmEvent.approveSendRaw a ∈ (EvmChain.check_and_approve_token env amount).1 := by
  have hsimt : EvmEvent.approveSendRaw a ∉ (EvmChain.simulate_transaction env hasData).1 := by
    intro hmem
    rcases simulate_trace_events env hasData _ hmem with h | h <;> exact EvmEvent.noConfusion h
  rcases hsim : EvmChain.simulate_transaction env hasData with ⟨st, sr⟩
  rw [hsim] at hsimt
  rcases sr with e | u
  · simp [EvmChain.execute_swap, hsim, hsimt]
  · by_cases hr : env.swapReceiptStatus ≠ 1 <;>
      simp [EvmChain.execute_swap, hsim, hsimt, hr]

/-! ### C2 — pre-flight simulation -/

/-- C2, counterexample: in a run with insufficient allowance the approval
transaction is broadcast (`approveSendRaw`) as the sixth observable call,
before any `estimate_gas` or `eth_call` has happened: approval
transactions go out with no pre-flight simulation at all, contradicting
"for every transaction sent through the EVM fill-and-send pipeline …
a pre-flight simulation is performed before broadcast". -/
theorem c2_counterexample :
    (let t := (EvmChain.execute_swap
        { allowance := 0, estimateGasResult := .ok 21000, ethCallResult := .ok "0x",
          swapReceiptStatus := 1, approveReceiptStatus := 1 }
        true true true false 100 true).1.take 6
     t = [.apiSwapCall, .allowanceCall, .getTransactionCount, .getMaxPriorityFee,
        .getLatestBlock, .approveSendRaw 100] ∧
     EvmEvent.estimateGas ∉ t ∧ EvmEvent.ethCall ∉ t) := by
  decide

/-- C2, amended: only the *swap* transaction is simulation-gated: if the
pre-flight simulation (gas estimation plus, when the transaction carries
payload data, a read-only call) fails, `execute_swap` raises an
`OKXDexSDKException` carrying the revert reason and the swap transaction
is never broadcast; approval transactions are sent without any pre-flight
simulation (see the counterexample). -/
theorem c2_swap_simulation_gate (env : EvmEnv) (fromTokenIsNative : Bool)
    (amount : ℕ) (hasData : Bool) (e : String)
    (h : (EvmChain.simulate_transaction env hasData).2 = .error e) :
    (EvmChain.execute_swap env true true true fromTokenIsNative amount hasData).2 =
      .error (.sdkException ("交易模拟失败: " ++ e)) ∧
    EvmEvent.swapSendRaw ∉
      (EvmChain.execute_swap env true true true fromTokenIsNative amount hasData).1 := by
  have hsimt : EvmEvent.swapSendRaw ∉ (EvmChain.simulate_transaction env hasData).1 := by
    intro hmem
    rcases simulate_trace_events env hasData _ hmem with hh | hh <;> exact EvmEvent.noConfusion hh
  have hcht : ∀ envx amt, EvmEvent.swapSendRaw ∉ (EvmChain.check_and_approve_token envx amt).1 := by
    intro envx amt hmem
    rw [check_and_approve_trace] at hmem
    revert hmem
    split_ifs <;> simp
  rcases hsim : EvmChain.simulate_transaction env hasData with ⟨st, sr⟩
  rw [hsim] at h hsimt
  simp only at h
  subst h
  constructor
  · simp [EvmChain.execute_swap, hsim]
  · cases fromTokenIsNative
    · simp [EvmChain.execute_swap, hsim, hsimt, hcht env amount]
    · simp [EvmChain.execute_swap, hsim, hsimt]

/-- C2, witness: a run whose gas estimation reverts ends in a
`SimulationFailure`-style error and never broadcasts the swap. -/
theorem c2_witness :
    (EvmChain.simulate_transaction
        { allowance := 0, estimateGasResult := .error "execution reverted",
          ethCallResult := .ok "0x", swapReceiptStatus := 1,
          approveReceiptStatus := 1 } true).2 = .error "execution reverted" ∧
    (EvmChain.execute_swap
        { allowance := 0, estimateGasResult := .error "execution reverted",
          ethCallResult := .ok "0x", swapReceiptStatus := 1,
          approveReceiptStatus := 1 } true true true true 100 true).2 =
      .error (.sdkException ("交易模拟失败: " ++ "execution reverted")) ∧
    EvmEvent.swapSendRaw ∉
      (EvmChain.execute_swap
        { allowance := 0, estimateGasResult := .error "execution reverted",
          ethCallResult := .ok "0x", swapReceiptStatus := 1,
          approveReceiptStatus := 1 } true true true true 100 true).1 := by
  refine ⟨rfl, ?_⟩
  have h := c2_swap_simulation_gate
    { allowance := 0, estimateGasResult := .error "execution reverted",
      ethCallResult := .ok "0x", swapReceiptStatus := 1, approveReceiptStatus := 1 }
    true 100 true "execution reverted" rfl
  exact h

/-! ### C3 — allowance-gated approval -/

/-- C3: on an EVM swap of a non-native token requiring raw amount
`amount`, an approval transaction is broadcast iff the queried allowance
is strictly below `amount`; every approval broadcast requests exactly
`amount`; and when the allowance is already sufficient, running the same
swap twice broadcasts no approval at all. -/
theorem c3_approval_iff_insufficient (env : EvmEnv) (amount : ℕ) (hasData : Bool) :
    ((EvmEvent.approveSendRaw amount ∈
        (EvmChain.execute_swap env true true true false amount hasData).1) ↔
      env.allowance < amount) ∧
    (∀ a : ℕ, EvmEvent.approveSendRaw a ∈
        (EvmChain.execute_swap env true true true false amount hasData).1 →
      a = amount) ∧
    (amount ≤ env.allowance → ∀ a : ℕ, EvmEvent.approveSendRaw a ∉
        (EvmChain.execute_swap env true true true false amount hasData).1 ++
          (EvmChain.execute_swap env true true true false amount hasData).1) := by
  have hmem : ∀ a : ℕ,
      (EvmEvent.approveSendRaw a ∈
        (EvmChain.execute_swap env true true true false amount hasData).1) ↔
      (env.allowance < amount ∧ a = amount) := by
    intro a
    rw [execute_swap_approveSendRaw_mem, check_and_approve_trace]
    split_ifs with hlt
    · simp [hlt]
    · simp [hlt]
  refine ⟨?_, fun a h => ((hmem a).1 h).2, fun hge a h2 => ?_⟩
  · rw [hmem amount]; simp
  · rcases List.mem_append.mp h2 with h | h <;>
      exact absurd ((hmem a).1 h).1 (not_lt.mpr hge)

/-- C3, witness: with allowance 0 an approval for exactly 100 is
broadcast; with allowance 200 no approval for 100 is broadcast. -/
theorem c3_witness :
    (EvmEvent.approveSendRaw 100 ∈
      (EvmChain.execute_swap
        { allowance := 0, estimateGasResult := .ok 21000, ethCallResult := .ok "0x",
          swapReceiptStatus := 1, approveReceiptStatus := 1 }
        true true true false 100 true).1) ∧
    (EvmEvent.approveSendRaw 100 ∉
      (EvmChain.execute_swap
        { allowance := 200, estimateGasResult := .ok 21000, ethCallResult := .ok "0x",
          swapReceiptStatus := 1, approveReceiptStatus := 1 }
        true true true false 100 true).1) := by
  constructor
  · exact (c3_approval_iff_insufficient
      { allowance := 0, estimateGasResult := .ok 21000, ethCallResult := .ok "0x",
        swapReceiptStatus := 1, approveReceiptStatus := 1 } 100 true).1.mpr (by decide)
  · intro h
    exact absurd ((c3_approval_iff_insufficient
      { allowance := 200, estimateGasResult := .ok 21000, ethCallResult := .ok "0x",
        swapReceiptStatus := 1, approveReceiptStatus := 1 } 100 true).1.mp h)
      (by decide)

/-! ### C7 — receipt-status handling -/

/-- C7, counterexample: an approval receipt with status 0 (failure) is
accepted silently — `EvmChain.approve` still returns its transaction hash
normally and `_check_and_approve_token` completes normally, so "for every
transaction sent through the EVM fill-and-send pipeline … a receipt
status other than success raises a fatal TransactionFailed error" is
false on the approval paths. -/
theorem c7_counterexample :
    (EvmChain.approve
      { allowance := 0, estimateGasResult := .ok 0, ethCallResult := .ok "",
        swapReceiptStatus := 1, approveReceiptStatus := 0 } true true).2 = .ok () ∧
    ({ allowance := 0, estimateGasResult := .ok 0, ethCallResult := .ok "",
        swapReceiptStatus := 1, approveReceiptStatus := 0 } : EvmEnv).approveReceiptStatus ≠ 1 ∧
    (EvmChain.check_and_approve_token
      { allowance := 0, estimateGasResult := .ok 0, ethCallResult := .ok "",
        swapReceiptStatus := 1, approveReceiptStatus := 0 } 100).2 = .ok () := by
  refine ⟨rfl, by decide, rfl⟩

/-- C7, amended: only the swap transaction's receipt is status-checked:
with a successful simulation, a swap receipt status other than 1 makes
`execute_swap` raise an `OKXDexSDKException` reporting the receipt (no
normal result), while `approve` and `_check_and_approve_token` return
normally whatever their approval receipt's status. -/
theorem c7_swap_receipt_check (env : EvmEnv) (fromTokenIsNative : Bool)
    (amount : ℕ) (hasData : Bool)
    (hsim : (EvmChain.simulate_transaction env hasData).2 = .ok ())
    (hst : env.swapReceiptStatus ≠ 1) :
    (EvmChain.execute_swap env true true true fromTokenIsNative amount hasData).2 =
      .error (.sdkException "Transaction failed") ∧
    (∀ envx : EvmEnv, (EvmChain.approve envx true true).2 = .ok ()) ∧
    (∀ (envx : EvmEnv) (amt : ℕ),
      (EvmChain.check_and_approve_token envx amt).2 = .ok ()) := by
  refine ⟨?_, fun envx => rfl, fun envx amt => ?_⟩
  · rcases hsimp : EvmChain.simulate_transaction env hasData with ⟨st, sr⟩
    rw [hsimp] at hsim
    simp only at hsim
    subst hsim
    simp [EvmChain.execute_swap, hsimp, hst]
  · rw [EvmChain.check_and_approve_token]; split_ifs <;> rfl

/-- C7, witness: a swap run with receipt status 0 ends in the
transaction-failed error. -/
theorem c7_witness :
    (EvmChain.simulate_transaction
      { allowance := 500, estimateGasResult := .ok 21000, ethCallResult := .ok "0x",
        swapReceiptStatus := 0, approveReceiptStatus := 1 } false).2 = .ok () ∧
    ({ allowance := 500, estimateGasResult := .ok 21000, ethCallResult := .ok "0x",
        swapReceiptStatus := 0, approveReceiptStatus := 1 } : EvmEnv).swapReceiptStatus ≠ 1 ∧
    (EvmChain.execute_swap
      { allowance := 500, estimateGasResult := .ok 21000, ethCallResult := .ok "0x",
        swapReceiptStatus := 0, approveReceiptStatus := 1 }
      true true true false 100 false).2 =
      .error (.sdkException "Transaction failed") := by
  refine ⟨rfl, by decide, ?_⟩
  exact (c7_swap_receipt_check
    { allowance := 500, estimateGasResult := .ok 21000, ethCallResult := .ok "0x",
      swapReceiptStatus := 0, approveReceiptStatus := 1 }
    false 100 false rfl (by decide)).1

/-! ### C9 — decimals cache keyed by address alone -/

/-- C9: after one successful resolution for a token address, any later
call with the same address — for *any* chain id — returns the cached
value with zero external lookups, so the same pair twice costs exactly
one lookup and a different chain sharing the address string inherits the
first chain's precision. -/
theorem c9_cache_keyed_by_address (oracle : String → String → ℕ)
    (cache : List (String × ℕ)) (chain₁ chain₂ addr : String)
    (h : cache.lookup addr = none) :
    OkxDexClient.get_token_decimals_from_address oracle cache chain₁ addr =
      (oracle chain₁ addr, (addr, oracle chain₁ addr) :: cache, 1) ∧
    OkxDexClient.get_token_decimals_from_address oracle
        ((addr, oracle chain₁ addr) :: cache) chain₂ addr =
      (oracle chain₁ addr, (addr, oracle chain₁ addr) :: cache, 0) := by
  constructor
  · rw [OkxDexClient.get_token_decimals_from_address, h]
  · rw [OkxDexClient.get_token_decimals_from_address]
    simp [List.lookup]

/-- C9, witness: chain "1" resolves `"0xabc"` to 18 via its handler; the
later call for chain "501" with the same address performs no lookup and
returns chain "1"'s value, although `"501"`'s own handler would have
answered 9. -/
theorem c9_witness :
    OkxDexClient.get_token_decimals_from_address
        (fun chain _ => if chain = "1" then 18 else 9) [] "1" "0xabc" =
      (18, [("0xabc", 18)], 1) ∧
    OkxDexClient.get_token_decimals_from_address
        (fun chain _ => if chain = "1" then 18 else 9) [("0xabc", 18)] "501" "0xabc" =
      (18, [("0xabc", 18)], 0) := by
  have h := c9_cache_keyed_by_address
    (fun chain _ => if chain = "1" then 18 else 9) [] "1" "501" "0xabc" rfl
  simpa using h

/-! ### C1 — facade → handler delegation -/

/-- C1: `client.py`'s `execute_swap` forwards the keyword `private_key`
to `handler.execute_swap`, but `EvmChain.execute_swap` has no such
parameter, so for every EVM-family chain the delegated call raises
`TypeError` — whether a private key was supplied or omitted, since the
keyword is passed either way — instead of returning the handler's
`SwapResult`.  (`SolanaChain.execute_swap` does accept the keyword,
confirming the facade's calling convention is the intended one and the
EVM handler signature is the slip.) -/
theorem c1_private_key_keyword_mismatch :
    OkxDexClient.execute_swap_delegation EvmChain.execute_swap_params =
      .error .typeError ∧
    OkxDexClient.execute_swap_delegation SolanaChain.execute_swap_params = .ok () ∧
    "private_key" ∈ OkxDexClient.execute_swap_call_keywords ∧
    "private_key" ∉ EvmChain.execute_swap_params := by
  refine ⟨rfl, rfl, by decide, by decide⟩

/-! ### C5 — fresh blockhash, all other message fields preserved -/

/-- C5: on both the direct-submission path (`execute_swap`) and the
aggregator-relay path (`execute_swap_via_okx`), the message that gets
signed carries exactly the freshly fetched blockhash — even when it
differs from the one embedded in the aggregator payload — while header,
account keys, instructions and address-table lookups are taken unchanged
from the aggregator-supplied message. -/
theorem c5_fresh_blockhash_preserves_rest {H K B I L : Type}
    (original : MessageV0 H K B I L) (fresh_blockhash : B) :
    (SolanaChain.execute_swap_signed_message original fresh_blockhash).recent_blockhash =
        fresh_blockhash ∧
    (SolanaChain.execute_swap_signed_message original fresh_blockhash).header =
        original.header ∧
    (SolanaChain.execute_swap_signed_message original fresh_blockhash).account_keys =
        original.account_keys ∧
    (SolanaChain.execute_swap_signed_message original fresh_blockhash).instructions =
        original.instructions ∧
    (SolanaChain.execute_swap_signed_message original fresh_blockhash).address_table_lookups =
        original.address_table_lookups ∧
    (SolanaChain.execute_swap_via_okx_signed_message original fresh_blockhash).recent_blockhash =
        fresh_blockhash ∧
    (SolanaChain.execute_swap_via_okx_signed_message original fresh_blockhash).header =
        original.header ∧
    (SolanaChain.execute_swap_via_okx_signed_message original fresh_blockhash).account_keys =
        original.account_keys ∧
    (SolanaChain.execute_swap_via_okx_signed_message original fresh_blockhash).instructions =
        original.instructions ∧
    (SolanaChain.execute_swap_via_okx_signed_message original fresh_blockhash).address_table_lookups =
        original.address_table_lookups := by
  exact ⟨rfl, rfl, rfl, rfl, rfl, rfl, rfl, rfl, rfl, rfl⟩

/-! ### C10 — price accessors are not total -/

/-- With a nonzero input amount, `get_price` can only return a value or
raise `ZeroDivisionError`. -/
theorem get_price_cases (q : QuoteCompare) (input : ℚ) (hin : input ≠ 0) :
    (q.amount_out = 0 ∧ q.get_price input = .error .zeroDivision) ∨
    (q.amount_out ≠ 0 ∧ q.get_price input = .ok (input / q.amount_out)) := by
  rw [QuoteCompare.get_price, QuoteCompare.get_output_amount]
  by_cases h0 : q.amount_out = 0
  · exact Or.inl ⟨h0, by rw [if_neg hin, if_pos h0]⟩
  · exact Or.inr ⟨h0, by rw [if_neg hin, if_neg h0]⟩

/-- Once some venue in the remaining list has `amount_out = 0` (and the
input amount is nonzero), the key evaluation inside `min` raises. -/
theorem best_venue_aux_raises (input : ℚ) (hin : input ≠ 0) :
    ∀ (l : List QuoteCompare) (best : QuoteCompare × ℚ) (q : QuoteCompare),
      q ∈ l → q.amount_out = 0 →
      RouterResult.best_venue_aux input best l = .error .zeroDivision := by
  intro l
  induction l with
  | nil => intro best q hq _; simp at hq
  | cons a rest ih =>
    intro best q hq hq0
    rw [RouterResult.best_venue_aux]
    rcases List.mem_cons.mp hq with rfl | hmem
    · rcases get_price_cases q input hin with ⟨_, he⟩ | ⟨hne, _⟩
      · simp only [he]
      · exact absurd hq0 hne
    · rcases get_price_cases a input hin with ⟨_, he⟩ | ⟨_, hok⟩
      · simp only [he]
      · simp only [hok]
        split
        · exact ih _ q hmem hq0
        · exact ih best q hmem hq0

/-- C10: the derived price accessors are not total.
`RouterResult.execution_price` guards on `to_amount_decimal` but divides
by `from_amount_decimal`, so a zero from-amount with a nonzero to-amount
raises `ZeroDivisionError`; `QuoteCompare.get_price` guards on the input
amount but divides by the output amount, so a zero `amount_out` with a
nonzero input raises; and `RouterResult.best_venue`, which minimises over
`get_price`, raises as soon as any listed venue has `amount_out = 0`. -/
theorem c10_price_guards_raise :
    (∀ r : RouterResult, r.from_token_amount = 0 → r.to_token_amount ≠ 0 →
      r.execution_price = .error .zeroDivision) ∧
    (∀ (q : QuoteCompare) (input : ℚ), q.amount_out = 0 → input ≠ 0 →
      q.get_price input = .error .zeroDivision) ∧
    (∀ (r : RouterResult) (q : QuoteCompare), q ∈ r.quote_compare_list →
      q.amount_out = 0 → r.from_amount_decimal ≠ 0 →
      r.best_venue = .error .zeroDivision) := by
  refine ⟨?_, ?_, ?_⟩
  · intro r hfrom hto
    have hfd : r.from_amount_decimal = 0 := by
      rw [RouterResult.from_amount_decimal, hfrom]; norm_num
    have htd : r.to_amount_decimal ≠ 0 := by
      rw [RouterResult.to_amount_decimal]
      exact div_ne_zero (Nat.cast_ne_zero.mpr hto) (by positivity)
    rw [RouterResult.execution_price, if_neg htd, if_pos hfd]
  · intro q input hq0 hin
    rcases get_price_cases q input hin with ⟨_, he⟩ | ⟨hne, _⟩
    · exact he
    · exact absurd hq0 hne
  · intro r q hq hq0 hin
    rcases hl : r.quote_compare_list with _ | ⟨a, rest⟩
    · rw [hl] at hq; simp at hq
    · rw [hl] at hq
      rw [RouterResult.best_venue, hl]
      rcases List.mem_cons.mp hq with rfl | hmem
      · rcases get_price_cases q r.from_amount_decimal hin with ⟨_, he⟩ | ⟨hne, _⟩
        · simp only [he]
        · exact absurd hq0 hne
      · rcases get_price_cases a r.from_amount_decimal hin with ⟨_, he⟩ | ⟨_, hok⟩
        · simp only [he]
        · simp only [hok]
          exact best_venue_aux_raises r.from_amount_decimal hin rest _ q hmem hq0

/-- C10, witness: concrete routes exercising all three raising paths. -/
theorem c10_witness :
    (RouterResult.execution_price
      { chain_id := "1", estimate_gas_fee := "0", from_token_decimal := 18,
        from_token_amount := 0, to_token_decimal := 6, to_token_amount := 5,
        quote_compare_list := [], trade_fee := "0" } = .error .zeroDivision) ∧
    (QuoteCompare.get_price
      { amount_out := 0, dex_logo := "", dex_name := "Uni", trade_fee := "0" } 1 =
      .error .zeroDivision) ∧
    (RouterResult.best_venue
      { chain_id := "1", estimate_gas_fee := "0", from_token_decimal := 0,
        from_token_amount := 3, to_token_decimal := 6, to_token_amount := 5,
        quote_compare_list :=
          [{ amount_out := 0, dex_logo := "", dex_name := "Uni", trade_fee := "0" }],
        trade_fee := "0" } = .error .zeroDivision) := by
  refine ⟨c10_price_guards_raise.1 _ rfl (by norm_num), ?_, ?_⟩
  · exact c10_price_guards_raise.2.1 _ 1 rfl (by norm_num)
  · refine c10_price_guards_raise.2.2 _
      { amount_out := 0, dex_logo := "", dex_name := "Uni", trade_fee := "0" }
      (by simp) rfl ?_
    rw [RouterResult.from_amount_decimal]
    norm_num
